import Mathlib

/-!
Shallow embedding of the testcase execution and classification core of
`coctus` (`src/solution.rs`), together with the data model it uses.

The operating-system interactions of `run_testcase` (spawning the child,
writing to its stdin, waiting with a timeout, killing it, collecting its
output) are modelled by an explicit environment value `Env` describing how
the outside world behaves during one call, and the call is embedded as a
function from the testcase and that environment to an event trace plus
either a `TestResult` or a panic message (each Rust `.expect(msg)` that
fires becomes `Except.error msg`, since a failed `expect` aborts the
thread instead of returning a verdict).
-/

namespace Coctus

/-- The `Testcase` record of `crate::clash`, with the fields spelled out in
the doc example of `solution.rs` (lines 22-28). -/
structure Testcase where
  index : Nat
  title : String
  test_in : String
  test_out : String
  is_validator : Bool
deriving Repr, DecidableEq

/-- Modelled from the spec: the `CommandExit` enum of the `test_result`
module, absent from the sources; a three-way classification of how the
spawned process concluded (`Ok`, `Error`, `Timeout`), whose constructors
are used directly in `solution.rs` lines 82-88. -/
inductive CommandExit where
  | Ok
  | Error
  | Timeout
deriving Repr, DecidableEq

/-- Modelled from the spec: the `TestResult` enum of the `test_result`
module, absent from the sources. `Success`, `Failed` (carrying actual
stdout and stderr), `TimedOut` (carrying partial stdout and stderr) and
`UnableToRun` (carrying a diagnostic message). Captured byte streams are
modelled as strings. -/
inductive TestResult where
  | Success
  | Failed (stdout : String) (stderr : String)
  | TimedOut (stdout : String) (stderr : String)
  | UnableToRun (error_msg : String)
deriving Repr, DecidableEq

/-- Split a character list at every newline. -/
def splitLines : List Char → List (List Char)
  | [] => [[]]
  | c :: cs =>
    let rest := splitLines cs
    if c == '\n' then [] :: rest
    else
      match rest with
      | [] => [[c]]
      | l :: ls => (c :: l) :: ls

/-- Modelled from the spec: helper for the normalized equality of the
classifier — strips trailing whitespace (spaces, tabs, carriage returns)
from one line. -/
def stripLine (l : List Char) : List Char :=
  (l.reverse.dropWhile (fun c => c == ' ' || c == '\t' || c == '\r')).reverse

/-- Join lines back with single newlines. -/
def joinLines : List (List Char) → List Char
  | [] => []
  | [l] => l
  | l :: ls => l ++ '\n' :: joinLines ls

/-- Modelled from the spec: the normalized form under which the classifier
of the `test_result` module (absent from the sources) compares captured
stdout with the expected output — trailing whitespace of every line and
trailing line endings are ignored, content is otherwise compared exactly. -/
def normalize (s : String) : String :=
  String.mk (joinLines ((((splitLines s.data).map stripLine).reverse.dropWhile
    (fun l => l == [])).reverse))

/-- Modelled from the spec: `TestResult::from_output` of the `test_result`
module, absent from the sources — the classifier called at
`solution.rs` line 89. A `Timeout` exit signal yields `TimedOut` with the
captured streams regardless of content; otherwise stdout is compared with
the expected output under normalized equality, yielding `Success` on
equality and `Failed` with the captured streams on inequality,
irrespective of an `Ok` or `Error` exit signal. -/
def TestResult.from_output (expected : String) (stdout : String) (stderr : String)
    (exit_signal : CommandExit) : TestResult :=
  match exit_signal with
  | CommandExit.Timeout => TestResult.TimedOut stdout stderr
  | _ =>
    if normalize stdout = normalize expected then TestResult.Success
    else TestResult.Failed stdout stderr

/-- Modelled from the spec: `TestResult::is_success`, the derived predicate
of the `test_result` module (absent from the sources) — true only for
`Success`. -/
def TestResult.is_success : TestResult → Bool
  | TestResult.Success => true
  | _ => false

/-- How a successfully spawned child process behaves during one call of
`run_testcase`: whether each fallible step of `solution.rs` succeeds, and
the observable outcome of the execution. -/
structure ChildBehavior where
  /-- `write_all` of `test_in` to the child's stdin succeeds (line 68). -/
  writeOk : Bool
  /-- `wait_timeout` returns `Ok` (line 72). -/
  waitOk : Bool
  /-- `wait_timeout` returns `Some` status: the process concluded before
  the deadline; `false` means the timeout elapsed first (line 74). -/
  finishesInTime : Bool
  /-- `kill` succeeds (line 77; consulted only on the timeout path). -/
  killOk : Bool
  /-- `wait_with_output` succeeds (line 80). -/
  waitOutputOk : Bool
  /-- `output.status.success()` (line 84). -/
  exitSuccess : Bool
  /-- the bytes collected as `output.stdout`. -/
  stdout : String
  /-- the bytes collected as `output.stderr`. -/
  stderr : String
deriving Repr, DecidableEq

/-- The message attached to a launch error, as rendered by `format!`. -/
structure SpawnError where
  msg : String
deriving Repr, DecidableEq

/-- Outcome of the `spawn()` call at line 55: a launch error, or a child
process with a given behavior. -/
inductive SpawnOutcome where
  | fail (error : SpawnError)
  | ok (child : ChildBehavior)
deriving Repr, DecidableEq

/-- The environment of one `run_testcase` call: the configured program name
as seen by `get_program().to_str()` (`none` models a name that is not
valid UTF-8), and the outcome of spawning. -/
structure Env where
  program : Option String
  spawn : SpawnOutcome
deriving Repr, DecidableEq

/-- Observable side effects of `run_testcase`, in order. `spawn` is the
spawn attempt; `writeStdin s` records that the bytes `s` were written in
full to the child's stdin; `closeStdin` records the drop of the stdin
handle performed by `ChildExt::wait_timeout` before it starts waiting
(the `wait_timeout` crate closes stdin first, mirroring `Child::wait`;
the doctest of `solution.rs`, which pipes into `cat` and expects success,
depends on this); `waitTimeout`, `kill` and `waitOutput` record the
corresponding attempted calls. -/
inductive Event where
  | spawn
  | writeStdin (bytes : String)
  | closeStdin
  | waitTimeout
  | kill
  | waitOutput
deriving Repr, DecidableEq

/-- The coarse exit signal computed at `solution.rs` lines 82-88: `Timeout`
when the deadline elapsed, otherwise `Ok` on a success status and `Error`
on any other status. -/
def commandExitOf (timed_out : Bool) (success : Bool) : CommandExit :=
  if timed_out then CommandExit.Timeout
  else if success then CommandExit.Ok
  else CommandExit.Error

/-- Embedding of `run_testcase` (`solution.rs` lines 50-90), returning the
event trace together with either the returned `TestResult` or the message
of the `.expect` that panicked. The branches follow the source in order:
spawn failure returns `UnableToRun` built from the program name (with the
fixed fallback text when the name is not valid UTF-8) and the launch
error; then the full input is written (panic on failure), `wait_timeout`
drops stdin and waits (panic on failure), a timed-out child is killed
(panic on failure), `wait_with_output` collects the streams (panic on
failure), and the classifier is handed the expected output, the captured
streams and the coarse exit signal. -/
def run_testcaseT (testcase : Testcase) (env : Env) : List Event × Except String TestResult :=
  match env.spawn with
  | SpawnOutcome.fail error =>
    let program := env.program.getD "Unable to run command"
    let error_msg := program ++ ": " ++ error.msg
    ([Event.spawn], Except.ok (TestResult.UnableToRun error_msg))
  | SpawnOutcome.ok run =>
    if !run.writeOk then
      ([Event.spawn], Except.error "STDIN of child process should be writable")
    else
      let traceW := [Event.spawn, Event.writeStdin testcase.test_in,
                     Event.closeStdin, Event.waitTimeout]
      if !run.waitOk then
        (traceW, Except.error "Process should be able to wait for execution")
      else
        let timed_out := !run.finishesInTime
        if timed_out && !run.killOk then
          (traceW ++ [Event.kill], Except.error "Process should have been killed")
        else
          let traceK := if timed_out then traceW ++ [Event.kill] else traceW
          let traceO := traceK ++ [Event.waitOutput]
          if !run.waitOutputOk then
            (traceO, Except.error "Process should allow waiting for its execution")
          else
            let exit_status := commandExitOf timed_out run.exitSuccess
            (traceO, Except.ok (TestResult.from_output testcase.test_out run.stdout run.stderr exit_status))

/-- The value-level view of `run_testcase`: the verdict (or panic) without
the trace. -/
def run_testcase (testcase : Testcase) (env : Env) : Except String TestResult :=
  (run_testcaseT testcase env).2

/-- A child behavior with none of the internal I/O faults of
`solution.rs`: the stdin write, the timed wait, the kill on the timeout
path and the final output collection all succeed
(`finishesInTime || killOk` states that the kill succeeds whenever it is
attempted, which happens only when the deadline elapsed first). -/
def ChildBehavior.faultFree (run : ChildBehavior) : Bool :=
  run.writeOk && run.waitOk && (run.finishesInTime || run.killOk) && run.waitOutputOk

/-- An environment free of internal I/O faults (spawn failure is not an
internal fault: it is classified, not panicked on). -/
def Env.faultFree (env : Env) : Bool :=
  match env.spawn with
  | SpawnOutcome.fail _ => true
  | SpawnOutcome.ok run => run.faultFree

/-- Embedding of `lazy_run` (`solution.rs` lines 38-47): the sequence of
`(testcase, verdict)` pairs obtained by running the testcases one at a
time, in order. Each element draws its own environment (`envs n` for the
n-th remaining call), since every call spawns a fresh process. -/
def lazy_run : List Testcase → (Nat → Env) → List (Testcase × Except String TestResult)
  | [], _ => []
  | t :: rest, envs => (t, run_testcase t (envs 0)) :: lazy_run rest (fun n => envs (n + 1))

/-- Number of spawn attempts recorded in a trace. -/
def countSpawn (es : List Event) : Nat :=
  es.countP (fun e => match e with | Event.spawn => true | _ => false)

/-- Whether a `run_testcase` outcome is a terminal verdict (as opposed to a
panic of one of the `.expect` calls). -/
def isVerdict : Except String TestResult → Bool
  | Except.ok _ => true
  | Except.error _ => false

/-- The testcase of the doc example of `solution.rs` (lines 22-28). -/
def sampleTc : Testcase := ⟨1, "Test #1", "hey", "hey", false⟩

/-- A second, distinct testcase sharing only the expected output. -/
def otherTc : Testcase := ⟨2, "Test #2", "other input", "hey", true⟩

/-- A well-behaved child: concludes in time with a success status, echoing
the sample input. -/
def okChild : ChildBehavior := ⟨true, true, true, true, true, true, "hey", ""⟩

/-- A child that concludes in time with a success status and the same
captured streams as `okChild`, but different irrelevant details. -/
def otherChild : ChildBehavior := ⟨true, true, true, false, true, true, "hey", ""⟩

/-- A child that does not conclude before the deadline, with partial
output captured. -/
def slowChild : ChildBehavior := ⟨true, true, false, true, true, false, "he", ""⟩

/-- A child whose stdin pipe closes before the input can be written. -/
def brokenPipeChild : ChildBehavior := ⟨false, true, true, true, true, true, "", ""⟩

/-- Environment where `cat` spawns as `okChild`. -/
def okEnv : Env := ⟨some "cat", SpawnOutcome.ok okChild⟩

/-- Environment where the child behaves as `otherChild`. -/
def otherEnv : Env := ⟨some "tr", SpawnOutcome.ok otherChild⟩

/-- Environment where the child behaves as `slowChild`. -/
def slowEnv : Env := ⟨some "sleep", SpawnOutcome.ok slowChild⟩

/-- Environment where the child behaves as `brokenPipeChild`. -/
def brokenPipeEnv : Env := ⟨some "cat", SpawnOutcome.ok brokenPipeChild⟩

/-- Unpacking of a fault-free child behavior into its four components. -/
theorem faultFree_parts (run : ChildBehavior) (hff : run.faultFree = true) :
    run.writeOk = true ∧ run.waitOk = true ∧
    (run.finishesInTime = false → run.killOk = true) ∧ run.waitOutputOk = true := by
  simp only [ChildBehavior.faultFree, Bool.and_eq_true, Bool.or_eq_true] at hff
  obtain ⟨⟨⟨hw, hwa⟩, hor⟩, hwo⟩ := hff
  refine ⟨hw, hwa, ?_, hwo⟩
  intro hfin
  rcases hor with hfin2 | hk
  · rw [hfin] at hfin2; exact absurd hfin2 (by simp)
  · exact hk

/-- On a fault-free, successfully spawned execution, `run_testcase` hands
the classifier the expected output, the captured streams and the signal
computed by `commandExitOf`, and returns its verdict. -/
theorem run_testcase_ok_of_faultFree (tc : Testcase) (env : Env) (run : ChildBehavior)
    (h : env.spawn = SpawnOutcome.ok run) (hff : run.faultFree = true) :
    run_testcase tc env =
      Except.ok (TestResult.from_output tc.test_out run.stdout run.stderr
        (commandExitOf (!run.finishesInTime) run.exitSuccess)) := by
  obtain ⟨hw, hwa, hk, hwo⟩ := faultFree_parts run hff
  cases hfin : run.finishesInTime with
  | false => simp [run_testcase, run_testcaseT, h, hw, hwa, hwo, hfin, hk hfin]
  | true => simp [run_testcase, run_testcaseT, h, hw, hwa, hwo, hfin]

/-- The first components of `lazy_run`'s output are the input testcases. -/
theorem lazy_run_map_fst (ts : List Testcase) (envs : Nat → Env) :
    (lazy_run ts envs).map Prod.fst = ts := by
  induction ts generalizing envs with
  | nil => rfl
  | cons t rest ih => simp [lazy_run, ih]

/-- `lazy_run` yields exactly one element per testcase. -/
theorem lazy_run_length (ts : List Testcase) (envs : Nat → Env) :
    (lazy_run ts envs).length = ts.length := by
  induction ts generalizing envs with
  | nil => rfl
  | cons t rest ih => simp [lazy_run, ih]

/-- Every call of `run_testcase` records exactly one spawn attempt. -/
theorem countSpawn_run_testcaseT (tc : Testcase) (env : Env) :
    countSpawn (run_testcaseT tc env).1 = 1 := by
  rcases env with ⟨prog, spawn⟩
  cases spawn with
  | fail e => rfl
  | ok run =>
    rcases run with ⟨w, wa, f, k, wo, s, so, se⟩
    cases w <;> cases wa <;> cases f <;> cases k <;> cases wo <;> rfl

/-- C1: the classifier returns `TimedOut` carrying the captured streams
when the exit signal is `Timeout`, regardless of content; for any other
signal it compares stdout with the expected output under normalized
equality, returning `Success` on equality and `Failed` carrying stdout
and stderr on inequality, irrespective of whether the signal was `Ok` or
`Error`. -/
theorem C1_classifier_timeout_then_output (expected stdout stderr : String) :
    TestResult.from_output expected stdout stderr CommandExit.Timeout
      = TestResult.TimedOut stdout stderr
  ∧ ∀ sig : CommandExit, sig ≠ CommandExit.Timeout →
      (normalize stdout = normalize expected →
        TestResult.from_output expected stdout stderr sig = TestResult.Success)
    ∧ (normalize stdout ≠ normalize expected →
        TestResult.from_output expected stdout stderr sig
          = TestResult.Failed stdout stderr) := by
  refine ⟨rfl, ?_⟩
  intro sig hsig
  cases sig with
  | Timeout => exact absurd rfl hsig
  | Ok => constructor <;> intro h <;> simp [TestResult.from_output, h]
  | Error => constructor <;> intro h <;> simp [TestResult.from_output, h]

/-- Witness for C1 at concrete inputs: a timeout verdict keeps its streams,
matching output yields `Success` under `Error`, mismatching output yields
`Failed` under `Ok`. -/
theorem C1_classifier_timeout_then_output_witness :
    TestResult.from_output "a" "a " "e" CommandExit.Timeout = TestResult.TimedOut "a " "e"
  ∧ TestResult.from_output "a" "a " "e" CommandExit.Error = TestResult.Success
  ∧ TestResult.from_output "a" "b" "e" CommandExit.Ok = TestResult.Failed "b" "e" :=
  ⟨(C1_classifier_timeout_then_output "a" "a " "e").1,
   ((C1_classifier_timeout_then_output "a" "a " "e").2 CommandExit.Error
     (by decide)).1 (by decide),
   ((C1_classifier_timeout_then_output "a" "b" "e").2 CommandExit.Ok
     (by decide)).2 (by decide)⟩

/-- C2: when spawning fails, `run_testcase` immediately returns an
`UnableToRun` verdict whose message is the rendered program name followed
by the raw launch error; the trace holds only the spawn attempt (no
write, no wait, no kill, no output collection), and the outcome is an
ordinary verdict rather than a panic, so the surrounding iteration
continues with the next testcase. -/
theorem C2_spawn_failure_unable_to_run (tc : Testcase) (env : Env) (error : SpawnError)
    (h : env.spawn = SpawnOutcome.fail error) :
    run_testcaseT tc env =
      ([Event.spawn],
       Except.ok (TestResult.UnableToRun
         (env.program.getD "Unable to run command" ++ ": " ++ error.msg))) := by
  simp [run_testcaseT, h]

/-- Witness for C2: a failed spawn of `python` yields only the spawn
attempt and an `UnableToRun` verdict naming the program and the error. -/
theorem C2_spawn_failure_unable_to_run_witness :
    run_testcaseT sampleTc ⟨some "python", SpawnOutcome.fail ⟨"No such file"⟩⟩ =
      ([Event.spawn], Except.ok (TestResult.UnableToRun "python: No such file")) :=
  C2_spawn_failure_unable_to_run sampleTc
    ⟨some "python", SpawnOutcome.fail ⟨"No such file"⟩⟩ ⟨"No such file"⟩ rfl

/-- C3: when the deadline elapses before the child concludes (and the
other I/O steps succeed), the child is killed, its streams are drained,
and the verdict is `TimedOut` carrying the captured partial stdout and
stderr. -/
theorem C3_timeout_killed_and_timed_out (tc : Testcase) (env : Env) (run : ChildBehavior)
    (h : env.spawn = SpawnOutcome.ok run) (hff : run.faultFree = true)
    (htime : run.finishesInTime = false) :
    run_testcaseT tc env =
      ([Event.spawn, Event.writeStdin tc.test_in, Event.closeStdin, Event.waitTimeout,
        Event.kill, Event.waitOutput],
       Except.ok (TestResult.TimedOut run.stdout run.stderr)) := by
  obtain ⟨hw, hwa, hk, hwo⟩ := faultFree_parts run hff
  simp [run_testcaseT, h, hw, hwa, hwo, htime, hk htime,
    TestResult.from_output, commandExitOf]

/-- Witness for C3: the slow child is killed and its partial output is
carried in the `TimedOut` verdict. -/
theorem C3_timeout_killed_and_timed_out_witness :
    run_testcaseT sampleTc slowEnv =
      ([Event.spawn, Event.writeStdin "hey", Event.closeStdin, Event.waitTimeout,
        Event.kill, Event.waitOutput],
       Except.ok (TestResult.TimedOut "he" "")) :=
  C3_timeout_killed_and_timed_out sampleTc slowEnv slowChild rfl rfl rfl

/-- C4: the coarse exit signal handed to the classifier maps a success
status within the deadline to `Ok`, any other status within the deadline
to `Error`, and an elapsed deadline to `Timeout` regardless of the killed
process's exit status. -/
theorem C4_exit_signal_mapping (tc : Testcase) (env : Env) (run : ChildBehavior)
    (h : env.spawn = SpawnOutcome.ok run) (hff : run.faultFree = true) :
    (run.finishesInTime = true → run.exitSuccess = true →
      run_testcase tc env = Except.ok (TestResult.from_output tc.test_out
        run.stdout run.stderr CommandExit.Ok))
  ∧ (run.finishesInTime = true → run.exitSuccess = false →
      run_testcase tc env = Except.ok (TestResult.from_output tc.test_out
        run.stdout run.stderr CommandExit.Error))
  ∧ (run.finishesInTime = false →
      run_testcase tc env = Except.ok (TestResult.from_output tc.test_out
        run.stdout run.stderr CommandExit.Timeout)) := by
  refine ⟨?_, ?_, ?_⟩
  · intro hfin hs
    rw [run_testcase_ok_of_faultFree tc env run h hff]
    simp [hfin, hs, commandExitOf]
  · intro hfin hs
    rw [run_testcase_ok_of_faultFree tc env run h hff]
    simp [hfin, hs, commandExitOf]
  · intro hfin
    rw [run_testcase_ok_of_faultFree tc env run h hff]
    simp [hfin, commandExitOf]

/-- Witness for C4: the well-behaved child's execution is classified under
the `Ok` signal, yielding `Success` on the sample testcase. -/
theorem C4_exit_signal_mapping_witness :
    run_testcase sampleTc okEnv = Except.ok TestResult.Success := by
  have h := (C4_exit_signal_mapping sampleTc okEnv okChild rfl rfl).1 rfl rfl
  rw [h]
  rfl

/-- C5: whenever spawning succeeds and the stdin write succeeds, the trace
begins with the spawn, the write of the entirety of `test_in`, the
closing of the stdin handle, and only then the wait for completion. -/
theorem C5_stdin_written_and_closed_before_wait (tc : Testcase) (env : Env)
    (run : ChildBehavior) (h : env.spawn = SpawnOutcome.ok run)
    (hw : run.writeOk = true) :
    ∃ rest, (run_testcaseT tc env).1 =
      [Event.spawn, Event.writeStdin tc.test_in, Event.closeStdin, Event.waitTimeout]
        ++ rest := by
  rcases env with ⟨prog, spawn⟩
  simp only at h
  subst h
  rcases run with ⟨w, wa, f, k, wo, s, so, se⟩
  simp only at hw
  subst hw
  cases wa <;> cases f <;> cases k <;> cases wo <;> exact ⟨_, rfl⟩

/-- Witness for C5: on the well-behaved child, the trace extends the
spawn-write-close-wait prefix. -/
theorem C5_stdin_written_and_closed_before_wait_witness :
    ∃ rest, (run_testcaseT sampleTc okEnv).1 =
      [Event.spawn, Event.writeStdin "hey", Event.closeStdin, Event.waitTimeout]
        ++ rest :=
  C5_stdin_written_and_closed_before_wait sampleTc okEnv okChild rfl rfl

/-- C6 counterexample: with a successfully spawned child whose stdin pipe
closes before the input is written, `run_testcase` does not return a
terminal `TestResult`: the `.expect` at `solution.rs` line 69 panics,
aborting instead of yielding a verdict. -/
theorem C6_io_fault_no_verdict_counterexample :
    run_testcase sampleTc brokenPipeEnv
      = Except.error "STDIN of child process should be writable"
  ∧ isVerdict (run_testcase sampleTc brokenPipeEnv) = false :=
  ⟨rfl, rfl⟩

/-- C6 amended: in every environment free of internal I/O faults,
`run_testcase` returns exactly one terminal `TestResult`; an internal
I/O fault instead panics via `.expect`, aborting the run rather than
yielding a verdict for the testcase. -/
theorem C6_fault_free_always_verdict (tc : Testcase) (env : Env)
    (h : env.faultFree = true) :
    ∃ r : TestResult, run_testcase tc env = Except.ok r := by
  rcases env with ⟨prog, spawn⟩
  cases spawn with
  | fail e => exact ⟨_, rfl⟩
  | ok run =>
    have hff : run.faultFree = true := h
    exact ⟨_, run_testcase_ok_of_faultFree tc ⟨prog, SpawnOutcome.ok run⟩ run rfl hff⟩

/-- Witness for C6 amended: the fault-free environment yields a verdict. -/
theorem C6_fault_free_always_verdict_witness :
    ∃ r : TestResult, run_testcase sampleTc okEnv = Except.ok r :=
  C6_fault_free_always_verdict sampleTc okEnv rfl

/-- C7: the sequence driver is a lazily-pulled, single-pass stream: an
empty source yields nothing; pulling on `t :: rest` performs exactly the
head's run and hands back the untouched tail; the sequence is finite with
exactly one element per testcase; its order matches the input order; and
every element's run records exactly one spawn attempt. -/
theorem C7_lazy_run_stream :
    (∀ envs : Nat → Env, lazy_run [] envs = [])
  ∧ (∀ (t : Testcase) (rest : List Testcase) (envs : Nat → Env),
      lazy_run (t :: rest) envs =
        (t, run_testcase t (envs 0)) :: lazy_run rest (fun n => envs (n + 1)))
  ∧ (∀ (ts : List Testcase) (envs : Nat → Env),
      (lazy_run ts envs).length = ts.length)
  ∧ (∀ (ts : List Testcase) (envs : Nat → Env),
      (lazy_run ts envs).map Prod.fst = ts)
  ∧ (∀ (tc : Testcase) (env : Env), countSpawn (run_testcaseT tc env).1 = 1) :=
  ⟨fun _ => rfl, fun _ _ _ => rfl, lazy_run_length, lazy_run_map_fst,
   countSpawn_run_testcaseT⟩

/-- C8: the verdict is a pure function of the expected output, the
captured streams and the coarse exit signal: two fault-free executions
agreeing on those agree on the verdict, whatever their testcase indices,
titles, inputs, programs or timing details. -/
theorem C8_verdict_pure_function_of_outcome (tc1 tc2 : Testcase) (env1 env2 : Env)
    (run1 run2 : ChildBehavior)
    (h1 : env1.spawn = SpawnOutcome.ok run1) (h2 : env2.spawn = SpawnOutcome.ok run2)
    (hf1 : run1.faultFree = true) (hf2 : run2.faultFree = true)
    (hexp : tc1.test_out = tc2.test_out)
    (hso : run1.stdout = run2.stdout) (hse : run1.stderr = run2.stderr)
    (hsig : commandExitOf (!run1.finishesInTime) run1.exitSuccess
          = commandExitOf (!run2.finishesInTime) run2.exitSuccess) :
    run_testcase tc1 env1 = run_testcase tc2 env2 := by
  rw [run_testcase_ok_of_faultFree tc1 env1 run1 h1 hf1,
      run_testcase_ok_of_faultFree tc2 env2 run2 h2 hf2,
      hexp, hso, hse, hsig]

/-- Witness for C8: two executions with different testcases, programs and
child details but identical captured streams, expected output and exit
signal receive the same verdict. -/
theorem C8_verdict_pure_function_of_outcome_witness :
    run_testcase sampleTc okEnv = run_testcase otherTc otherEnv :=
  C8_verdict_pure_function_of_outcome sampleTc otherTc okEnv otherEnv
    okChild otherChild rfl rfl rfl rfl rfl rfl rfl rfl

/-- C9: each pair of the produced sequence hands back exactly the
caller's testcase, unchanged: the first components of `lazy_run`'s
output are the input testcases themselves, in their original order. -/
theorem C9_testcases_handed_back_unchanged (ts : List Testcase) (envs : Nat → Env) :
    (lazy_run ts envs).map Prod.fst = ts :=
  lazy_run_map_fst ts envs

/-- C10: the `UnableToRun` message is the program name, a colon and the
raw launch error when the name is valid UTF-8, and substitutes the fixed
text `"Unable to run command"` for the name when it is not. -/
theorem C10_unable_to_run_message_format (tc : Testcase) (error : SpawnError)
    (p : String) :
    run_testcase tc ⟨some p, SpawnOutcome.fail error⟩
      = Except.ok (TestResult.UnableToRun (p ++ ": " ++ error.msg))
  ∧ run_testcase tc ⟨none, SpawnOutcome.fail error⟩
      = Except.ok (TestResult.UnableToRun ("Unable to run command" ++ ": " ++ error.msg)) :=
  ⟨rfl, rfl⟩

end Coctus
